import Mathlib

/-!
Formal model of the fire-planner FIRE calculator core.

Shallow embedding over `ℚ` of:
  * `src/calculators/scenarios.ts` — the month-by-month scenario engine
    (`buildScenario`, its date/age helpers and its running state);
  * `src/calculators/fire.ts` — target calculators and the gap solver;
  * `src/calculators/compound.ts` — `futureValue` / `requiredMonthly`
    (source text present in the repository bundle next to
    `src/analyzers/suggestions.ts`);
  * `src/calculators/mortgage.ts` — not present in the source tree; its one
    function used by the engine is modelled from the spec (see its doc
    comment).

JavaScript numbers are modelled as rationals.  `Math.pow` at a fractional
exponent (used only by the inflation-adjusted-target-at-month helper, where
the exponent is `months / 12`) has no rational closed form, so the whole
development is parameterised by a function `jpow : ℚ → ℚ → ℚ` standing for
`Math.pow`; every theorem holds for every such function, and witnesses
instantiate it with a concrete one.  Integer-exponent powers (mortgage
amortisation, `futureValue`) are taken exactly with `Monoid.npow`.

Reporting-only outputs of the engine (the yearly aggregation table, the
human-readable phase summary list and the scenario label string) are not
referenced by any verified property and are omitted from the embedded
`Scenario` record; the full month-by-month projection list and every scalar
result field are embedded.
-/

namespace FirePlanner

/-- Property purchase parameters (`src/types.ts`, `PropertyConfig`).
`additionalCosts` and `purchaseMonth` are optional in the source
(`prop.additionalCosts ?? 0`, `prop.purchaseMonth ?? prop.purchaseYear * 12`). -/
structure PropertyConfig where
  price : ℚ
  downPaymentPercent : ℚ
  feesPercent : ℚ
  additionalCosts : Option ℚ
  purchaseYear : ℕ
  purchaseMonth : Option ℕ
  mortgageRate : ℚ
  mortgageTerm : ℕ
  label : String
deriving DecidableEq

/-- Simulation configuration (`src/types.ts`, `FireConfig`).  `startDate` is
kept as the parsed `(year, month)` pair (the source parses the ISO string
"YYYY-MM" with `parseStartDate`; string decoding is I/O plumbing outside the
verified core).  Fields used only by excluded collaborators
(`returnRates` drives `buildAllScenarios`) are kept for shape fidelity. -/
structure FireConfig where
  currentAge : ℤ
  targetAge : ℤ
  annualExpenses : ℚ
  withdrawalRate : ℚ
  inflationRate : ℚ
  currentPortfolio : ℚ
  currentCash : ℚ
  monthlyInvestment : ℚ
  monthlyRent : Option ℚ
  parentLoanYears : ℕ
  returnRates : List ℚ
  startDate : Option (ℤ × ℕ)
  birthMonth : Option ℕ
  rentStartMonth : Option ℕ
  keepPortfolio : Bool

/-- Modelled from the spec: default simulation start month
(`DEFAULT_FIRE_CONFIG.startDate`; the current `src/config/defaults.ts`
carrying it is not under `src/`).  The spec (§3) records a configurable
simulation start month with a default; the concrete default value does not
affect any verified property. -/
def DEFAULT_startDate : ℤ × ℕ := (2026, 2)

/-- Modelled from the spec: default birth month
(`DEFAULT_FIRE_CONFIG.birthMonth`, documented as "1-12, default 5 (May)" in
`src/types.ts`). -/
def DEFAULT_birthMonth : ℕ := 5

/-- Date helper (`scenarios.ts` `addMonths`): month arithmetic on a
`(year, month)` pair, `month ∈ [1,12]`.  `Math.floor` division and the JS
`%` agree with `Int.fdiv` / `Int.emod` for the non-negative totals that
occur for calendar years. -/
def addMonths (startYear : ℤ) (startMo : ℕ) (offset : ℕ) : ℤ × ℕ :=
  let totalMonths : ℤ := startYear * 12 + ((startMo : ℤ) - 1) + (offset : ℤ)
  (Int.fdiv totalMonths 12, (Int.emod totalMonths 12 + 1).toNat)

/-- Age helper (`scenarios.ts` `computeAge`): current age plus the number of
birth-month anniversaries that fall in the window `(start, start+offset]`.
The unbounded source `for` loop over candidate birthday years `yy`
starting at `startYearBirthday`, breaking once the birthday passes the
current month, is rendered as a finite count: the loop visits exactly the
`yy` with `yy*12 + (birthMonth-1) ≤ curTotal`, and counts those with
`yy*12 + (birthMonth-1) ≥ startTotal`. -/
def computeAge (currentAge : ℤ) (startYear : ℤ) (startMo : ℕ) (monthOffset : ℕ)
    (birthMonth : ℕ) : ℤ :=
  let startTotal : ℤ := startYear * 12 + ((startMo : ℤ) - 1)
  let curTotal : ℤ := startTotal + (monthOffset : ℤ)
  let startYearBirthday : ℤ := if (startMo : ℤ) ≤ (birthMonth : ℤ) then startYear else startYear + 1
  let lastBirthdayYear : ℤ := Int.fdiv (curTotal - ((birthMonth : ℤ) - 1)) 12
  let candidates := (lastBirthdayYear - startYearBirthday + 1).toNat
  let birthdays := (List.range candidates).countP
    (fun j => decide (startTotal ≤ (startYearBirthday + (j : ℤ)) * 12 + ((birthMonth : ℤ) - 1)))
  currentAge + (birthdays : ℤ)

/-- Modelled from the spec: `src/calculators/mortgage.ts` is not present
under `src/` (only its tests and callers are).  Spec §4.2: standard
fixed-rate amortisation `M = P·r·(1+r)^n / ((1+r)^n − 1)` with
`r = annualRatePercent/100/12`, `n = termYears×12`; zero principal gives
zero payment; zero rate gives the linear `P/n`. -/
def monthlyMortgagePayment (principal annualRatePercent : ℚ) (termYears : ℕ) : ℚ :=
  if principal = 0 then 0
  else if annualRatePercent = 0 then principal / ((termYears : ℚ) * 12)
  else
    let r := annualRatePercent / 100 / 12
    let n := termYears * 12
    principal * r * (1 + r) ^ n / ((1 + r) ^ n - 1)

/-- Basic FIRE number (`fire.ts` `fireNumber`): annual expenses / withdrawal rate. -/
def fireNumber (annualExpenses withdrawalRate : ℚ) : ℚ :=
  annualExpenses / withdrawalRate

/-- Inflation-adjusted FIRE number (`fire.ts` `inflationAdjustedFireNumber`):
expenses grown by `Math.pow (1+inflation) years`, over the withdrawal rate.
`jpow` stands for `Math.pow` (the exponent may be fractional). -/
def inflationAdjustedFireNumber (jpow : ℚ → ℚ → ℚ)
    (annualExpenses withdrawalRate inflationRate years : ℚ) : ℚ :=
  (annualExpenses * jpow (1 + inflationRate) years) / withdrawalRate

/-- Month-offset variant (`fire.ts` `inflationAdjustedFireNumberAtMonth`):
converts months to fractional years. -/
def inflationAdjustedFireNumberAtMonth (jpow : ℚ → ℚ → ℚ)
    (annualExpenses withdrawalRate inflationRate : ℚ) (months : ℕ) : ℚ :=
  inflationAdjustedFireNumber jpow annualExpenses withdrawalRate inflationRate
    ((months : ℚ) / 12)

/-- Property acquisition cash (`fire.ts` `propertyCashNeeded`):
`price × (downPayment% + fees%)/100 + additionalCosts`. -/
def propertyCashNeeded (p : PropertyConfig) : ℚ :=
  p.price * ((p.downPaymentPercent + p.feesPercent) / 100) + p.additionalCosts.getD 0

/-- Scheduled purchase month of a property
(`prop.purchaseMonth ?? prop.purchaseYear * 12`). -/
def purchaseMonthOf (p : PropertyConfig) : ℕ :=
  p.purchaseMonth.getD (p.purchaseYear * 12)

/-- The `propertyMonthMap` of `buildScenario` as a lookup function:
`Map.set` keeps the last property inserted for a month, so a left fold in
list order with later entries overriding matches `propertyMonthMap.get m`. -/
def propertyMonthAt (props : List PropertyConfig) (m : ℕ) : Option PropertyConfig :=
  props.foldl (fun acc p => if purchaseMonthOf p = m then some p else acc) none

/-- First property purchase month, `Infinity` (here `⊤`) when no properties
(`Math.min(...properties.map(…))`). -/
def firstPurchaseMonth (props : List PropertyConfig) : WithTop ℕ :=
  props.foldl (fun acc p => min acc ((purchaseMonthOf p : ℕ) : WithTop ℕ)) ⊤

/-- One entry of the `activeMortgages` collection of the engine:
`{ payment, endMonth }`. -/
structure ActiveMortgage where
  payment : ℚ
  endMonth : ℕ
deriving DecidableEq

/-- One emitted month record (`src/types.ts`, `MonthProjection`).  The `date`
is the `(year, month)` pair rendered by `formatDate` in the source. -/
structure MonthProjection where
  month : ℕ
  date : ℤ × ℕ
  age : ℤ
  phase : String
  startBalance : ℚ
  contribution : ℚ
  growth : ℚ
  propertyWithdrawal : ℚ
  propertyLabel : Option String
  parentLoan : Option ℚ
  endBalance : ℚ
  monthlyRent : ℚ
  monthlyMortgage : ℚ
  monthlyParentLoan : ℚ
  monthlyInvesting : ℚ
deriving DecidableEq, Inhabited

/-- The mutable loop state of `buildScenario`, plus the accumulated month
records. -/
structure EngineState where
  balance : ℚ
  activeMortgages : List ActiveMortgage
  parentLoanPayment : ℚ
  parentLoanEndMonth : ℕ
  totalParentLoan : ℚ
  fireReachedMonth : Option ℕ
  fireReachedDate : Option (ℤ × ℕ)
  fireReachedYear : Option ℕ
  fireReachedAge : Option ℤ
  feasible : Bool
  months : List MonthProjection

/-- Scenario result (`src/types.ts`, `Scenario`), without the
reporting-only `label`, yearly `projections` and `phases` fields (see the
file header). -/
structure Scenario where
  returnRate : ℚ
  monthProjections : List MonthProjection
  fireReachedYear : Option ℕ
  fireReachedAge : Option ℤ
  fireReachedMonth : Option ℕ
  fireReachedDate : Option (ℤ × ℕ)
  finalBalance : ℚ
  feasible : Bool
  parentLoanTotal : Option ℚ

/-- Net effect of the property-purchase block of the loop body
(`scenarios.ts` lines 134–168) on the running state: the source mutates
`propertyWithdrawal`, `propertyLabel`, `parentLoan`, `activeMortgages`,
`parentLoanPayment`, `parentLoanEndMonth` and `totalParentLoan` in place;
this record carries their post-block values. -/
structure PurchaseEffect where
  withdrawal : ℚ
  propertyLabel : Option String
  loan : ℚ
  mortgages : List ActiveMortgage
  plPayment : ℚ
  plEndMonth : ℕ
  totalPL : ℚ

/-- The property-purchase block for month `m` (no-op when no property is
scheduled).  In the insufficient-funds branch the source executes
`parentLoan = cashNeeded - max(0, availableBalance)` before
`propertyWithdrawal = max(0, availableBalance)`. -/
def purchaseStep (cfg : FireConfig) (props : List PropertyConfig)
    (startBalance monthlyInvesting growth : ℚ) (st : EngineState) (m : ℕ) :
    PurchaseEffect :=
  match propertyMonthAt props m with
  | none =>
      { withdrawal := 0, propertyLabel := none, loan := 0,
        mortgages := st.activeMortgages, plPayment := st.parentLoanPayment,
        plEndMonth := st.parentLoanEndMonth, totalPL := st.totalParentLoan }
  | some p =>
      let cashNeeded := propertyCashNeeded p
      let wlt : ℚ × ℚ × ℚ :=
        if cfg.keepPortfolio then
          (0, cashNeeded, st.totalParentLoan + cashNeeded)
        else
          let availableBalance := startBalance + monthlyInvesting + growth
          if cashNeeded ≤ availableBalance then
            (cashNeeded, 0, st.totalParentLoan)
          else
            (max 0 availableBalance, cashNeeded - max 0 availableBalance,
              st.totalParentLoan + (cashNeeded - max 0 availableBalance))
      let loanAmount := p.price * (1 - p.downPaymentPercent / 100)
      let newPayment := monthlyMortgagePayment loanAmount p.mortgageRate p.mortgageTerm
      let mortgages := st.activeMortgages ++ [⟨newPayment, m + p.mortgageTerm * 12⟩]
      let plpe : ℚ × ℕ :=
        if 0 < wlt.2.1 ∧ 0 < cfg.parentLoanYears then
          (wlt.2.1 / ((cfg.parentLoanYears : ℚ) * 12), m + cfg.parentLoanYears * 12)
        else (st.parentLoanPayment, st.parentLoanEndMonth)
      { withdrawal := wlt.1, propertyLabel := some p.label, loan := wlt.2.1,
        mortgages := mortgages, plPayment := plpe.1, plEndMonth := plpe.2,
        totalPL := wlt.2.2 }

/-- The month record emitted by one iteration of the month loop of
`buildScenario` (`scenarios.ts` lines 120–229), computed from the loop
state at the start of the month, in source order: costs, investable amount,
growth, property event, balance update with clamping, phase label.  The
record does not depend on `Math.pow` (the target check only drives the
fire-reached bookkeeping, not the emitted record). -/
def stepRecord (cfg : FireConfig) (props : List PropertyConfig)
    (returnRate : ℚ) (st : EngineState) (m : ℕ) : MonthProjection :=
  let sd := cfg.startDate.getD DEFAULT_startDate
  let startYear := sd.1
  let startMo := sd.2
  let birthMonth := cfg.birthMonth.getD DEFAULT_birthMonth
  let rentStartMonth := cfg.rentStartMonth.getD 0
  let firstPM := firstPurchaseMonth props
  let startBalance := st.balance
  let date := addMonths startYear startMo m
  let age := computeAge cfg.currentAge startYear startMo m birthMonth
  let rent := if rentStartMonth ≤ m ∧ ((m : ℕ) : WithTop ℕ) < firstPM then cfg.monthlyRent.getD 0 else 0
  let plPayment := if firstPM < ((m : ℕ) : WithTop ℕ) ∧ m ≤ st.parentLoanEndMonth then st.parentLoanPayment else 0
  let mortgage := st.activeMortgages.foldl (fun s mtg => s + (if m ≤ mtg.endMonth then mtg.payment else 0)) 0
  let monthlyInvesting := max 0 (cfg.monthlyInvestment - rent - mortgage - plPayment)
  let growth := startBalance * (returnRate / 12)
  let ev := purchaseStep cfg props startBalance monthlyInvesting growth st m
  let balanceRaw := startBalance + monthlyInvesting + growth - ev.withdrawal
  let balance2 := if balanceRaw < 0 then 0 else balanceRaw
  let anyMortgageActive := ev.mortgages.any (fun mtg => m ≤ mtg.endMonth)
  let phase :=
    if ((m : ℕ) : WithTop ℕ) ≤ firstPM then "Renting"
    else if m ≤ ev.plEndMonth then "Mortgage + Parent Loan"
    else if anyMortgageActive then "Mortgage Only"
    else if firstPM < ⊤ then "Post-Mortgage"
    else "Investing"
  { month := m, date := date, age := age, phase := phase,
    startBalance := startBalance, contribution := monthlyInvesting,
    growth := growth, propertyWithdrawal := ev.withdrawal,
    propertyLabel := ev.propertyLabel,
    parentLoan := if 0 < ev.loan then some ev.loan else none,
    endBalance := balance2, monthlyRent := rent, monthlyMortgage := mortgage,
    monthlyParentLoan := plPayment, monthlyInvesting := monthlyInvesting }

/-- One iteration of the month loop of `buildScenario` as a state
transformer: emits the month record of `stepRecord` and carries the
property-event effects, the bridge-loan-end reset, the feasibility flag
and the first-reached-target bookkeeping into the next state. -/
def stepMonth (jpow : ℚ → ℚ → ℚ) (cfg : FireConfig) (props : List PropertyConfig)
    (returnRate : ℚ) (st : EngineState) (m : ℕ) : EngineState :=
  let record := stepRecord cfg props returnRate st m
  let ev := purchaseStep cfg props record.startBalance record.contribution record.growth st m
  let plPayment2 := if m = ev.plEndMonth + 1 then 0 else ev.plPayment
  let balanceRaw := record.startBalance + record.contribution + record.growth - record.propertyWithdrawal
  let feasible2 := if balanceRaw < 0 then false else st.feasible
  let adjustedFire := inflationAdjustedFireNumberAtMonth jpow cfg.annualExpenses
    cfg.withdrawalRate cfg.inflationRate m
  let fr : Option ℕ × Option (ℤ × ℕ) × Option ℕ × Option ℤ :=
    if st.fireReachedMonth = none ∧ adjustedFire ≤ record.endBalance then
      (some m, some record.date, some ((m + 11) / 12), some record.age)
    else (st.fireReachedMonth, st.fireReachedDate, st.fireReachedYear, st.fireReachedAge)
  { balance := record.endBalance, activeMortgages := ev.mortgages,
    parentLoanPayment := plPayment2, parentLoanEndMonth := ev.plEndMonth,
    totalParentLoan := ev.totalPL, fireReachedMonth := fr.1,
    fireReachedDate := fr.2.1, fireReachedYear := fr.2.2.1,
    fireReachedAge := fr.2.2.2, feasible := feasible2,
    months := st.months ++ [record] }

/-- Loop state before the first month. -/
def initState (cfg : FireConfig) : EngineState :=
  { balance := cfg.currentPortfolio + cfg.currentCash, activeMortgages := [],
    parentLoanPayment := 0, parentLoanEndMonth := 0, totalParentLoan := 0,
    fireReachedMonth := none, fireReachedDate := none, fireReachedYear := none,
    fireReachedAge := none, feasible := true, months := [] }

/-- State after simulating months `1..k`. -/
def runMonths (jpow : ℚ → ℚ → ℚ) (cfg : FireConfig) (props : List PropertyConfig)
    (returnRate : ℚ) : ℕ → EngineState
  | 0 => initState cfg
  | k + 1 => stepMonth jpow cfg props returnRate (runMonths jpow cfg props returnRate k) (k + 1)

/-- `totalMonths = (targetAge - currentAge) * 12` (zero months when the
target age is not ahead of the current age; the JS loop body does not run). -/
def totalMonthsOf (cfg : FireConfig) : ℕ :=
  ((cfg.targetAge - cfg.currentAge) * 12).toNat

/-- The scenario engine (`scenarios.ts` `buildScenario`, monthly variant). -/
def buildScenario (jpow : ℚ → ℚ → ℚ) (cfg : FireConfig) (props : List PropertyConfig)
    (returnRate : ℚ) : Scenario :=
  let final := runMonths jpow cfg props returnRate (totalMonthsOf cfg)
  { returnRate := returnRate, monthProjections := final.months,
    fireReachedYear := final.fireReachedYear, fireReachedAge := final.fireReachedAge,
    fireReachedMonth := final.fireReachedMonth, fireReachedDate := final.fireReachedDate,
    finalBalance := final.balance, feasible := final.feasible,
    parentLoanTotal := if 0 < final.totalParentLoan then some final.totalParentLoan else none }

/-- Closed-form future value (`compound.ts` `futureValue`):
`months ≤ 0` returns the present value; zero annual rate takes the linear
branch; otherwise `PV·(1+r/12)^n + PMT·((1+r/12)^n − 1)/(r/12)`. -/
def futureValue (presentValue monthlyContribution annualRate : ℚ) (months : ℤ) : ℚ :=
  if months ≤ 0 then presentValue
  else if annualRate = 0 then presentValue + monthlyContribution * (months : ℚ)
  else
    let r := annualRate / 12
    let factor := (1 + r) ^ months.toNat
    presentValue * factor + monthlyContribution * ((factor - 1) / r)

/-- Closed-form required contribution (`compound.ts` `requiredMonthly`),
clamped at zero. -/
def requiredMonthly (presentValue targetValue annualRate : ℚ) (months : ℤ) : ℚ :=
  if months ≤ 0 then max 0 (targetValue - presentValue)
  else if annualRate = 0 then max 0 ((targetValue - presentValue) / (months : ℚ))
  else
    let r := annualRate / 12
    let factor := (1 + r) ^ months.toNat
    max 0 ((targetValue - presentValue * factor) * (r / (factor - 1)))

/-- Gap-analysis result record (`src/types.ts`, `GapAnalysis`). -/
structure GapAnalysis where
  fireNumber : ℚ
  inflationAdjustedFireNumber : ℚ
  totalPropertyCash : ℚ
  totalNeeded : ℚ
  currentAssets : ℚ
  gap : ℚ
  requiredMonthly : ℚ
  currentMonthly : ℚ
  monthlyShortfall : ℚ

/-- The bisection loop of `fire.ts` `requiredMonthlyWithPhases`: 50
iterations over `[lo, hi]`, halving toward the predicate boundary and
breaking once `hi - lo < 1` (the €1 tolerance); returns the final `hi`. -/
def bisect (pred : ℚ → Bool) : ℕ → ℚ → ℚ → ℚ
  | 0, _, hi => hi
  | fuel + 1, lo, hi =>
    let mid := (lo + hi) / 2
    let lohi : ℚ × ℚ := if pred mid then (lo, mid) else (mid, hi)
    if lohi.2 - lohi.1 < 1 then lohi.2 else bisect pred fuel lohi.1 lohi.2

/-- Binary search for the required monthly investment
(`fire.ts` `requiredMonthlyWithPhases`): probes the full scenario engine
over `[0, 50000]` and returns `Math.ceil` of the final upper bound. -/
def requiredMonthlyWithPhases (jpow : ℚ → ℚ → ℚ) (cfg : FireConfig)
    (props : List PropertyConfig) (rate : ℚ) (fireTarget : ℚ) : ℚ :=
  let hi := bisect
    (fun mid => decide (fireTarget ≤
      ( buildScenario jpow { cfg with monthlyInvestment := mid } props rate).finalBalance))
    50 0 50000
  ((⌈hi⌉ : ℤ) : ℚ)

/-- Gap analysis (`fire.ts` `gapAnalysis`): closed-form required monthly
when no properties are configured, bisection over the scenario engine
otherwise. -/
def gapAnalysis (jpow : ℚ → ℚ → ℚ) (cfg : FireConfig) (props : List PropertyConfig)
    (rate : ℚ) : GapAnalysis :=
  let years : ℤ := cfg.targetAge - cfg.currentAge
  let basicFire := fireNumber cfg.annualExpenses cfg.withdrawalRate
  let adjustedFire := inflationAdjustedFireNumber jpow cfg.annualExpenses
    cfg.withdrawalRate cfg.inflationRate (years : ℚ)
  let totalPropertyCash := props.foldl (fun s p => s + propertyCashNeeded p) 0
  let totalNeeded := adjustedFire + totalPropertyCash
  let currentAssets := cfg.currentPortfolio + cfg.currentCash
  let gap := totalNeeded - currentAssets
  let months := years * 12
  let reqMonthly :=
    if props ≠ [] then requiredMonthlyWithPhases jpow cfg props rate adjustedFire
    else requiredMonthly currentAssets adjustedFire rate months
  { fireNumber := basicFire, inflationAdjustedFireNumber := adjustedFire,
    totalPropertyCash := totalPropertyCash, totalNeeded := totalNeeded,
    currentAssets := currentAssets, gap := gap, requiredMonthly := reqMonthly,
    currentMonthly := cfg.monthlyInvestment,
    monthlyShortfall := reqMonthly - cfg.monthlyInvestment }

/-! ### Derived views of the engine output (proof infrastructure) -/

/-- The record emitted for the `(i+1)`-st simulated month. -/
def recAt (jpow : ℚ → ℚ → ℚ) (cfg : FireConfig) (props : List PropertyConfig)
    (rate : ℚ) (i : ℕ) : MonthProjection :=
  stepRecord cfg props rate (runMonths jpow cfg props rate i) (i + 1)

/-- The `i`-th (0-based) emitted month record of the built scenario. -/
def monthRec (jpow : ℚ → ℚ → ℚ) (cfg : FireConfig) (props : List PropertyConfig)
    (rate : ℚ) (i : ℕ) : MonthProjection :=
  ( buildScenario jpow cfg props rate).monthProjections.getD i default

/-- The mortgage obligations registered by the purchase events of months
`1..k`: one independently computed `{payment, endMonth}` record per
purchased property, in purchase order. -/
def mortgagesUpTo (props : List PropertyConfig) (k : ℕ) : List ActiveMortgage :=
  (List.range k).filterMap (fun i => (propertyMonthAt props (i + 1)).map (fun p =>
    ⟨monthlyMortgagePayment (p.price * (1 - p.downPaymentPercent / 100))
        p.mortgageRate p.mortgageTerm,
      (i + 1) + p.mortgageTerm * 12⟩))

/-- The raw (pre-clamping) end-of-month balance recomputed from the own fields
of an emitted record. -/
def rawOf (r : MonthProjection) : ℚ :=
  r.startBalance + r.contribution + r.growth - r.propertyWithdrawal

/-- The month-`(i+1)` end balance reaches the inflation-adjusted target
evaluated at month `i+1`. -/
def fireHit (jpow : ℚ → ℚ → ℚ) (cfg : FireConfig) (props : List PropertyConfig)
    (rate : ℚ) (i : ℕ) : Prop :=
  inflationAdjustedFireNumberAtMonth jpow cfg.annualExpenses cfg.withdrawalRate
      cfg.inflationRate (i + 1)
    ≤ (recAt jpow cfg props rate i).endBalance

/-! ### Concrete instances used by witnesses and the counterexample -/

/-- A concrete stand-in for `Math.pow` used by the concrete witness
scenarios below; their inflation-sensitive quantities vanish (zero annual
expenses or zero inflation), so the verified statements do not depend on
the choice. -/
def jpowOne : ℚ → ℚ → ℚ := fun _ _ => 1

/-- Witness configuration: one simulated year, €5+€5 starting assets, zero
savings capacity, €7 rent, no growth scenarios. -/
def wCfg : FireConfig :=
  { currentAge := 35, targetAge := 36, annualExpenses := 0, withdrawalRate := 1/25,
    inflationRate := 0, currentPortfolio := 5, currentCash := 5,
    monthlyInvestment := 0, monthlyRent := some 7, parentLoanYears := 10,
    returnRates := [], startDate := none, birthMonth := none,
    rentStartMonth := none, keepPortfolio := false }

/-- Witness property: zero price (hence zero mortgage), €100 additional
cost, scheduled at month 1 — its cost exceeds the €10 available balance. -/
def wProp : PropertyConfig :=
  { price := 0, downPaymentPercent := 20, feesPercent := 12,
    additionalCosts := some 100, purchaseYear := 0, purchaseMonth := some 1,
    mortgageRate := 0, mortgageTerm := 10, label := "W" }

/-- Witness property with a real mortgage: €1200 price, 20% down, zero
rate, 10-year term — loan 960, amortization payment 960/120 = 8. -/
def wPropM : PropertyConfig :=
  { price := 1200, downPaymentPercent := 20, feesPercent := 12,
    additionalCosts := none, purchaseYear := 0, purchaseMonth := some 1,
    mortgageRate := 0, mortgageTerm := 10, label := "M" }

/-- Counterexample configuration: portfolio never drawn down
(`keepPortfolio`), so each purchase is financed entirely by a bridge loan
whose size does not depend on the balance path. -/
def xCfg : FireConfig :=
  { currentAge := 35, targetAge := 36, annualExpenses := 0, withdrawalRate := 1/25,
    inflationRate := 0, currentPortfolio := 0, currentCash := 0,
    monthlyInvestment := 0, monthlyRent := none, parentLoanYears := 10,
    returnRates := [], startDate := none, birthMonth := none,
    rentStartMonth := none, keepPortfolio := true }

/-- First counterexample property: bridge loan 120000 at month 1, repaid
1000/month over 10 years (through month 121). -/
def xPropA : PropertyConfig :=
  { price := 0, downPaymentPercent := 20, feesPercent := 12,
    additionalCosts := some 120000, purchaseYear := 0, purchaseMonth := some 1,
    mortgageRate := 0, mortgageTerm := 10, label := "A" }

/-- Second counterexample property: bridge loan 12000 at month 2, repaid
100/month over 10 years (through month 122). -/
def xPropB : PropertyConfig :=
  { price := 0, downPaymentPercent := 20, feesPercent := 12,
    additionalCosts := some 12000, purchaseYear := 0, purchaseMonth := some 2,
    mortgageRate := 0, mortgageTerm := 10, label := "B" }

/-! ### Infrastructure lemmas about the engine fold -/

/-- Folding `s + g x` over a list accumulates the sum of the mapped list. -/
lemma foldl_add_map_sum {α : Type} (g : α → ℚ) (l : List α) (a : ℚ) :
    l.foldl (fun s x => s + g x) a = a + (l.map g).sum := by
  induction l generalizing a with
  | nil => simp
  | cons x xs ih => simp [ih, add_assoc]

/-- Summing over a `filterMap` equals summing the optional values with
`none` contributing `0`. -/
lemma sum_map_filterMap_option {α β : Type} (F : α → Option β) (G : β → ℚ)
    (l : List α) :
    ((l.filterMap F).map G).sum
      = (l.map (fun a => match F a with | some b => G b | none => 0)).sum := by
  induction l with
  | nil => rfl
  | cons x xs ih => cases h : F x <;> simp [List.filterMap_cons, h, ih]

lemma runMonths_zero (jpow : ℚ → ℚ → ℚ) (cfg : FireConfig)
    (props : List PropertyConfig) (rate : ℚ) :
    runMonths jpow cfg props rate 0 = initState cfg := rfl

lemma runMonths_succ (jpow : ℚ → ℚ → ℚ) (cfg : FireConfig)
    (props : List PropertyConfig) (rate : ℚ) (k : ℕ) :
    runMonths jpow cfg props rate (k + 1)
      = stepMonth jpow cfg props rate (runMonths jpow cfg props rate k) (k + 1) := rfl

lemma stepMonth_months (jpow : ℚ → ℚ → ℚ) (cfg : FireConfig)
    (props : List PropertyConfig) (rate : ℚ) (st : EngineState) (m : ℕ) :
    (stepMonth jpow cfg props rate st m).months
      = st.months ++ [stepRecord cfg props rate st m] := rfl

lemma runMonths_months (jpow : ℚ → ℚ → ℚ) (cfg : FireConfig)
    (props : List PropertyConfig) (rate : ℚ) (k : ℕ) :
    (runMonths jpow cfg props rate k).months
      = (List.range k).map (recAt jpow cfg props rate) := by
  induction k with
  | zero => rfl
  | succ k ih =>
      rw [runMonths_succ, stepMonth_months, ih, List.range_succ, List.map_append]
      rfl

lemma buildScenario_months (jpow : ℚ → ℚ → ℚ) (cfg : FireConfig)
    (props : List PropertyConfig) (rate : ℚ) :
    ( buildScenario jpow cfg props rate).monthProjections
      = (List.range (totalMonthsOf cfg)).map (recAt jpow cfg props rate) :=
  runMonths_months jpow cfg props rate (totalMonthsOf cfg)

lemma buildScenario_months_length (jpow : ℚ → ℚ → ℚ) (cfg : FireConfig)
    (props : List PropertyConfig) (rate : ℚ) :
    ( buildScenario jpow cfg props rate).monthProjections.length = totalMonthsOf cfg := by
  rw [buildScenario_months]; simp

lemma buildScenario_months_getD (jpow : ℚ → ℚ → ℚ) (cfg : FireConfig)
    (props : List PropertyConfig) (rate : ℚ) (i : ℕ) (h : i < totalMonthsOf cfg)
    (d : MonthProjection) :
    ( buildScenario jpow cfg props rate).monthProjections.getD i d
      = recAt jpow cfg props rate i := by
  rw [buildScenario_months]
  rw [List.getD_eq_getElem?_getD, List.getElem?_map, List.getElem?_range h]
  rfl

/-! ### Field characterizations of the emitted record -/

lemma stepRecord_month (cfg : FireConfig) (props : List PropertyConfig) (rate : ℚ)
    (st : EngineState) (m : ℕ) : (stepRecord cfg props rate st m).month = m := rfl

lemma stepRecord_startBalance (cfg : FireConfig) (props : List PropertyConfig)
    (rate : ℚ) (st : EngineState) (m : ℕ) :
    (stepRecord cfg props rate st m).startBalance = st.balance := rfl

lemma stepRecord_growth (cfg : FireConfig) (props : List PropertyConfig)
    (rate : ℚ) (st : EngineState) (m : ℕ) :
    (stepRecord cfg props rate st m).growth = st.balance * (rate / 12) := rfl

lemma stepRecord_monthlyRent (cfg : FireConfig) (props : List PropertyConfig)
    (rate : ℚ) (st : EngineState) (m : ℕ) :
    (stepRecord cfg props rate st m).monthlyRent
      = if cfg.rentStartMonth.getD 0 ≤ m ∧ ((m : ℕ) : WithTop ℕ) < firstPurchaseMonth props
        then cfg.monthlyRent.getD 0 else 0 := rfl

lemma stepRecord_monthlyParentLoan (cfg : FireConfig) (props : List PropertyConfig)
    (rate : ℚ) (st : EngineState) (m : ℕ) :
    (stepRecord cfg props rate st m).monthlyParentLoan
      = if firstPurchaseMonth props < ((m : ℕ) : WithTop ℕ) ∧ m ≤ st.parentLoanEndMonth
        then st.parentLoanPayment else 0 := rfl

lemma stepRecord_monthlyMortgage (cfg : FireConfig) (props : List PropertyConfig)
    (rate : ℚ) (st : EngineState) (m : ℕ) :
    (stepRecord cfg props rate st m).monthlyMortgage
      = st.activeMortgages.foldl
          (fun s mtg => s + (if m ≤ mtg.endMonth then mtg.payment else 0)) 0 := rfl

lemma stepRecord_contribution (cfg : FireConfig) (props : List PropertyConfig)
    (rate : ℚ) (st : EngineState) (m : ℕ) :
    (stepRecord cfg props rate st m).contribution
      = max 0 (cfg.monthlyInvestment - (stepRecord cfg props rate st m).monthlyRent
          - (stepRecord cfg props rate st m).monthlyMortgage
          - (stepRecord cfg props rate st m).monthlyParentLoan) := rfl

lemma stepRecord_monthlyInvesting (cfg : FireConfig) (props : List PropertyConfig)
    (rate : ℚ) (st : EngineState) (m : ℕ) :
    (stepRecord cfg props rate st m).monthlyInvesting
      = (stepRecord cfg props rate st m).contribution := rfl

lemma stepRecord_propertyWithdrawal (cfg : FireConfig) (props : List PropertyConfig)
    (rate : ℚ) (st : EngineState) (m : ℕ) :
    (stepRecord cfg props rate st m).propertyWithdrawal
      = (purchaseStep cfg props st.balance (stepRecord cfg props rate st m).contribution
          (st.balance * (rate / 12)) st m).withdrawal := rfl

lemma stepRecord_parentLoan (cfg : FireConfig) (props : List PropertyConfig)
    (rate : ℚ) (st : EngineState) (m : ℕ) :
    (stepRecord cfg props rate st m).parentLoan
      = (if 0 < (purchaseStep cfg props st.balance
            (stepRecord cfg props rate st m).contribution
            (st.balance * (rate / 12)) st m).loan
         then some (purchaseStep cfg props st.balance
            (stepRecord cfg props rate st m).contribution
            (st.balance * (rate / 12)) st m).loan
         else none) := rfl

lemma stepRecord_endBalance (cfg : FireConfig) (props : List PropertyConfig)
    (rate : ℚ) (st : EngineState) (m : ℕ) :
    (stepRecord cfg props rate st m).endBalance
      = if (stepRecord cfg props rate st m).startBalance
            + (stepRecord cfg props rate st m).contribution
            + (stepRecord cfg props rate st m).growth
            - (stepRecord cfg props rate st m).propertyWithdrawal < 0
        then 0
        else (stepRecord cfg props rate st m).startBalance
            + (stepRecord cfg props rate st m).contribution
            + (stepRecord cfg props rate st m).growth
            - (stepRecord cfg props rate st m).propertyWithdrawal := rfl

/-! ### State invariants of the engine fold -/

lemma purchaseStep_mortgages (cfg : FireConfig) (props : List PropertyConfig)
    (sb mi g : ℚ) (st : EngineState) (m : ℕ) :
    (purchaseStep cfg props sb mi g st m).mortgages
      = st.activeMortgages ++ ((propertyMonthAt props m).map (fun p =>
          (⟨monthlyMortgagePayment (p.price * (1 - p.downPaymentPercent / 100))
              p.mortgageRate p.mortgageTerm,
            m + p.mortgageTerm * 12⟩ : ActiveMortgage))).toList := by
  cases h : propertyMonthAt props m <;> simp [purchaseStep, h]

lemma stepMonth_activeMortgages (jpow : ℚ → ℚ → ℚ) (cfg : FireConfig)
    (props : List PropertyConfig) (rate : ℚ) (st : EngineState) (m : ℕ) :
    (stepMonth jpow cfg props rate st m).activeMortgages
      = (purchaseStep cfg props st.balance (stepRecord cfg props rate st m).contribution
          (st.balance * (rate / 12)) st m).mortgages := rfl

lemma runMonths_activeMortgages (jpow : ℚ → ℚ → ℚ) (cfg : FireConfig)
    (props : List PropertyConfig) (rate : ℚ) (k : ℕ) :
    (runMonths jpow cfg props rate k).activeMortgages = mortgagesUpTo props k := by
  induction k with
  | zero => rfl
  | succ k ih =>
      rw [runMonths_succ, stepMonth_activeMortgages, purchaseStep_mortgages, ih]
      rw [mortgagesUpTo, mortgagesUpTo, List.range_succ, List.filterMap_append]
      cases h : propertyMonthAt props (k + 1) <;> simp [h]

lemma stepMonth_feasible (jpow : ℚ → ℚ → ℚ) (cfg : FireConfig)
    (props : List PropertyConfig) (rate : ℚ) (st : EngineState) (m : ℕ) :
    (stepMonth jpow cfg props rate st m).feasible
      = if rawOf (stepRecord cfg props rate st m) < 0 then false else st.feasible := rfl

lemma runMonths_feasible (jpow : ℚ → ℚ → ℚ) (cfg : FireConfig)
    (props : List PropertyConfig) (rate : ℚ) (k : ℕ) :
    (runMonths jpow cfg props rate k).feasible = true
      ↔ ∀ i < k, 0 ≤ rawOf (recAt jpow cfg props rate i) := by
  induction k with
  | zero => simp [runMonths_zero, initState]
  | succ k ih =>
      rw [runMonths_succ, stepMonth_feasible]
      split_ifs with h
      · constructor
        · intro hfalse; exact absurd hfalse (by simp)
        · intro hall
          exact absurd (hall k (Nat.lt_succ_self k)) (by simpa [recAt] using not_le.mpr h)
      · rw [ih]
        constructor
        · intro hall i hi
          rcases Nat.lt_succ_iff_lt_or_eq.mp hi with hlt | heq
          · exact hall i hlt
          · subst heq; simpa [recAt] using not_lt.mp h
        · intro hall i hi; exact hall i (Nat.lt_succ_of_lt hi)

lemma stepMonth_fireReachedMonth (jpow : ℚ → ℚ → ℚ) (cfg : FireConfig)
    (props : List PropertyConfig) (rate : ℚ) (st : EngineState) (m : ℕ) :
    (stepMonth jpow cfg props rate st m).fireReachedMonth
      = if st.fireReachedMonth = none
            ∧ inflationAdjustedFireNumberAtMonth jpow cfg.annualExpenses
                cfg.withdrawalRate cfg.inflationRate m
              ≤ (stepRecord cfg props rate st m).endBalance
        then some m else st.fireReachedMonth := by
  by_cases h : st.fireReachedMonth = none
      ∧ inflationAdjustedFireNumberAtMonth jpow cfg.annualExpenses
          cfg.withdrawalRate cfg.inflationRate m
        ≤ (stepRecord cfg props rate st m).endBalance <;>
    simp [stepMonth, h]

lemma stepMonth_fireReachedDate (jpow : ℚ → ℚ → ℚ) (cfg : FireConfig)
    (props : List PropertyConfig) (rate : ℚ) (st : EngineState) (m : ℕ) :
    (stepMonth jpow cfg props rate st m).fireReachedDate
      = if st.fireReachedMonth = none
            ∧ inflationAdjustedFireNumberAtMonth jpow cfg.annualExpenses
                cfg.withdrawalRate cfg.inflationRate m
              ≤ (stepRecord cfg props rate st m).endBalance
        then some (stepRecord cfg props rate st m).date else st.fireReachedDate := by
  by_cases h : st.fireReachedMonth = none
      ∧ inflationAdjustedFireNumberAtMonth jpow cfg.annualExpenses
          cfg.withdrawalRate cfg.inflationRate m
        ≤ (stepRecord cfg props rate st m).endBalance <;>
    simp [stepMonth, h]

lemma stepMonth_fireReachedYear (jpow : ℚ → ℚ → ℚ) (cfg : FireConfig)
    (props : List PropertyConfig) (rate : ℚ) (st : EngineState) (m : ℕ) :
    (stepMonth jpow cfg props rate st m).fireReachedYear
      = if st.fireReachedMonth = none
            ∧ inflationAdjustedFireNumberAtMonth jpow cfg.annualExpenses
                cfg.withdrawalRate cfg.inflationRate m
              ≤ (stepRecord cfg props rate st m).endBalance
        then some ((m + 11) / 12) else st.fireReachedYear := by
  by_cases h : st.fireReachedMonth = none
      ∧ inflationAdjustedFireNumberAtMonth jpow cfg.annualExpenses
          cfg.withdrawalRate cfg.inflationRate m
        ≤ (stepRecord cfg props rate st m).endBalance <;>
    simp [stepMonth, h]

lemma stepMonth_fireReachedAge (jpow : ℚ → ℚ → ℚ) (cfg : FireConfig)
    (props : List PropertyConfig) (rate : ℚ) (st : EngineState) (m : ℕ) :
    (stepMonth jpow cfg props rate st m).fireReachedAge
      = if st.fireReachedMonth = none
            ∧ inflationAdjustedFireNumberAtMonth jpow cfg.annualExpenses
                cfg.withdrawalRate cfg.inflationRate m
              ≤ (stepRecord cfg props rate st m).endBalance
        then some (stepRecord cfg props rate st m).age else st.fireReachedAge := by
  by_cases h : st.fireReachedMonth = none
      ∧ inflationAdjustedFireNumberAtMonth jpow cfg.annualExpenses
          cfg.withdrawalRate cfg.inflationRate m
        ≤ (stepRecord cfg props rate st m).endBalance <;>
    simp [stepMonth, h]

/-- Full characterization of the fire-reached bookkeeping after `k` months:
either no month so far reached the target and all four fields are unset, or
the fields were all fixed at the first month that reached it. -/
lemma runMonths_fire (jpow : ℚ → ℚ → ℚ) (cfg : FireConfig)
    (props : List PropertyConfig) (rate : ℚ) (k : ℕ) :
    ((runMonths jpow cfg props rate k).fireReachedMonth = none
      ∧ (runMonths jpow cfg props rate k).fireReachedDate = none
      ∧ (runMonths jpow cfg props rate k).fireReachedYear = none
      ∧ (runMonths jpow cfg props rate k).fireReachedAge = none
      ∧ ∀ i < k, ¬ fireHit jpow cfg props rate i)
    ∨ (∃ i, i < k ∧ fireHit jpow cfg props rate i
        ∧ (∀ j < i, ¬ fireHit jpow cfg props rate j)
        ∧ (runMonths jpow cfg props rate k).fireReachedMonth = some (i + 1)
        ∧ (runMonths jpow cfg props rate k).fireReachedDate
            = some (recAt jpow cfg props rate i).date
        ∧ (runMonths jpow cfg props rate k).fireReachedYear
            = some ((i + 1 + 11) / 12)
        ∧ (runMonths jpow cfg props rate k).fireReachedAge
            = some (recAt jpow cfg props rate i).age) := by
  induction k with
  | zero => exact Or.inl ⟨rfl, rfl, rfl, rfl, by omega⟩
  | succ k ih =>
      rw [runMonths_succ, stepMonth_fireReachedMonth, stepMonth_fireReachedDate,
        stepMonth_fireReachedYear, stepMonth_fireReachedAge]
      rcases ih with ⟨hm, hd, hy, ha, hnone⟩ | ⟨i, hik, hhit, hfirst, hm, hd, hy, ha⟩
      · by_cases hk : fireHit jpow cfg props rate k
        · refine Or.inr ⟨k, Nat.lt_succ_self k, hk, hnone, ?_⟩
          have hcond : (runMonths jpow cfg props rate k).fireReachedMonth = none
              ∧ inflationAdjustedFireNumberAtMonth jpow cfg.annualExpenses
                  cfg.withdrawalRate cfg.inflationRate (k + 1)
                ≤ (stepRecord cfg props rate (runMonths jpow cfg props rate k) (k + 1)).endBalance :=
            ⟨hm, hk⟩
          simp only [if_pos hcond]
          refine ⟨?_, ?_, ?_, ?_⟩ <;> simp [recAt]
        · have hcond : ¬ ((runMonths jpow cfg props rate k).fireReachedMonth = none
              ∧ inflationAdjustedFireNumberAtMonth jpow cfg.annualExpenses
                  cfg.withdrawalRate cfg.inflationRate (k + 1)
                ≤ (stepRecord cfg props rate (runMonths jpow cfg props rate k) (k + 1)).endBalance) := by
            intro hc; exact hk hc.2
          simp only [if_neg hcond]
          refine Or.inl ⟨hm, hd, hy, ha, ?_⟩
          intro i hi
          rcases Nat.lt_succ_iff_lt_or_eq.mp hi with hlt | heq
          · exact hnone i hlt
          · subst heq; exact hk
      · have hcond : ¬ ((runMonths jpow cfg props rate k).fireReachedMonth = none
            ∧ inflationAdjustedFireNumberAtMonth jpow cfg.annualExpenses
                cfg.withdrawalRate cfg.inflationRate (k + 1)
              ≤ (stepRecord cfg props rate (runMonths jpow cfg props rate k) (k + 1)).endBalance) := by
          intro hc; rw [hm] at hc; exact Option.some_ne_none _ hc.1
        simp only [if_neg hcond]
        exact Or.inr ⟨i, Nat.lt_succ_of_lt hik, hhit, hfirst, hm, hd, hy, ha⟩

/-! ### Projection bridges from the scenario record to the fold -/

lemma buildScenario_finalBalance (jpow : ℚ → ℚ → ℚ) (cfg : FireConfig)
    (props : List PropertyConfig) (rate : ℚ) :
    ( buildScenario jpow cfg props rate).finalBalance
      = (runMonths jpow cfg props rate (totalMonthsOf cfg)).balance := rfl

lemma buildScenario_feasible (jpow : ℚ → ℚ → ℚ) (cfg : FireConfig)
    (props : List PropertyConfig) (rate : ℚ) :
    ( buildScenario jpow cfg props rate).feasible
      = (runMonths jpow cfg props rate (totalMonthsOf cfg)).feasible := rfl

lemma buildScenario_fireReachedMonth (jpow : ℚ → ℚ → ℚ) (cfg : FireConfig)
    (props : List PropertyConfig) (rate : ℚ) :
    ( buildScenario jpow cfg props rate).fireReachedMonth
      = (runMonths jpow cfg props rate (totalMonthsOf cfg)).fireReachedMonth := rfl

lemma buildScenario_fireReachedDate (jpow : ℚ → ℚ → ℚ) (cfg : FireConfig)
    (props : List PropertyConfig) (rate : ℚ) :
    ( buildScenario jpow cfg props rate).fireReachedDate
      = (runMonths jpow cfg props rate (totalMonthsOf cfg)).fireReachedDate := rfl

lemma buildScenario_fireReachedYear (jpow : ℚ → ℚ → ℚ) (cfg : FireConfig)
    (props : List PropertyConfig) (rate : ℚ) :
    ( buildScenario jpow cfg props rate).fireReachedYear
      = (runMonths jpow cfg props rate (totalMonthsOf cfg)).fireReachedYear := rfl

lemma buildScenario_fireReachedAge (jpow : ℚ → ℚ → ℚ) (cfg : FireConfig)
    (props : List PropertyConfig) (rate : ℚ) :
    ( buildScenario jpow cfg props rate).fireReachedAge
      = (runMonths jpow cfg props rate (totalMonthsOf cfg)).fireReachedAge := rfl

lemma runMonths_balance_succ (jpow : ℚ → ℚ → ℚ) (cfg : FireConfig)
    (props : List PropertyConfig) (rate : ℚ) (k : ℕ) :
    (runMonths jpow cfg props rate (k + 1)).balance
      = (recAt jpow cfg props rate k).endBalance := rfl

lemma recAt_startBalance_succ (jpow : ℚ → ℚ → ℚ) (cfg : FireConfig)
    (props : List PropertyConfig) (rate : ℚ) (i : ℕ) :
    (recAt jpow cfg props rate (i + 1)).startBalance
      = (recAt jpow cfg props rate i).endBalance := rfl

lemma recAt_zero_startBalance (jpow : ℚ → ℚ → ℚ) (cfg : FireConfig)
    (props : List PropertyConfig) (rate : ℚ) :
    (recAt jpow cfg props rate 0).startBalance
      = cfg.currentPortfolio + cfg.currentCash := rfl

lemma recAt_month (jpow : ℚ → ℚ → ℚ) (cfg : FireConfig)
    (props : List PropertyConfig) (rate : ℚ) (i : ℕ) :
    (recAt jpow cfg props rate i).month = i + 1 := rfl

lemma monthRec_eq_recAt (jpow : ℚ → ℚ → ℚ) (cfg : FireConfig)
    (props : List PropertyConfig) (rate : ℚ) (i : ℕ) (h : i < totalMonthsOf cfg) :
    monthRec jpow cfg props rate i = recAt jpow cfg props rate i := by
  rw [monthRec, buildScenario_months_getD jpow cfg props rate i h]

lemma recAt_monthlyRent (jpow : ℚ → ℚ → ℚ) (cfg : FireConfig)
    (props : List PropertyConfig) (rate : ℚ) (i : ℕ) :
    (recAt jpow cfg props rate i).monthlyRent
      = if cfg.rentStartMonth.getD 0 ≤ i + 1
            ∧ ((i + 1 : ℕ) : WithTop ℕ) < firstPurchaseMonth props
        then cfg.monthlyRent.getD 0 else 0 := rfl

lemma recAt_monthlyMortgage (jpow : ℚ → ℚ → ℚ) (cfg : FireConfig)
    (props : List PropertyConfig) (rate : ℚ) (i : ℕ) :
    (recAt jpow cfg props rate i).monthlyMortgage
      = (runMonths jpow cfg props rate i).activeMortgages.foldl
          (fun s mtg => s + (if i + 1 ≤ mtg.endMonth then mtg.payment else 0)) 0 := rfl

lemma recAt_endBalance (jpow : ℚ → ℚ → ℚ) (cfg : FireConfig)
    (props : List PropertyConfig) (rate : ℚ) (i : ℕ) :
    (recAt jpow cfg props rate i).endBalance
      = if rawOf (recAt jpow cfg props rate i) < 0 then 0
        else rawOf (recAt jpow cfg props rate i) := rfl

lemma recAt_propertyWithdrawal (jpow : ℚ → ℚ → ℚ) (cfg : FireConfig)
    (props : List PropertyConfig) (rate : ℚ) (i : ℕ) :
    (recAt jpow cfg props rate i).propertyWithdrawal
      = (purchaseStep cfg props (runMonths jpow cfg props rate i).balance
          (recAt jpow cfg props rate i).contribution
          ((runMonths jpow cfg props rate i).balance * (rate / 12))
          (runMonths jpow cfg props rate i) (i + 1)).withdrawal := rfl

lemma recAt_parentLoan (jpow : ℚ → ℚ → ℚ) (cfg : FireConfig)
    (props : List PropertyConfig) (rate : ℚ) (i : ℕ) :
    (recAt jpow cfg props rate i).parentLoan
      = (if 0 < (purchaseStep cfg props (runMonths jpow cfg props rate i).balance
            (recAt jpow cfg props rate i).contribution
            ((runMonths jpow cfg props rate i).balance * (rate / 12))
            (runMonths jpow cfg props rate i) (i + 1)).loan
         then some (purchaseStep cfg props (runMonths jpow cfg props rate i).balance
            (recAt jpow cfg props rate i).contribution
            ((runMonths jpow cfg props rate i).balance * (rate / 12))
            (runMonths jpow cfg props rate i) (i + 1)).loan
         else none) := rfl

lemma recAt_avail (jpow : ℚ → ℚ → ℚ) (cfg : FireConfig)
    (props : List PropertyConfig) (rate : ℚ) (i : ℕ) :
    (recAt jpow cfg props rate i).startBalance + (recAt jpow cfg props rate i).contribution
        + (recAt jpow cfg props rate i).growth
      = (runMonths jpow cfg props rate i).balance + (recAt jpow cfg props rate i).contribution
        + (runMonths jpow cfg props rate i).balance * (rate / 12) := rfl

lemma recAt_startBalance (jpow : ℚ → ℚ → ℚ) (cfg : FireConfig)
    (props : List PropertyConfig) (rate : ℚ) (i : ℕ) :
    (recAt jpow cfg props rate i).startBalance
      = (runMonths jpow cfg props rate i).balance := rfl

lemma recAt_growth (jpow : ℚ → ℚ → ℚ) (cfg : FireConfig)
    (props : List PropertyConfig) (rate : ℚ) (i : ℕ) :
    (recAt jpow cfg props rate i).growth
      = (runMonths jpow cfg props rate i).balance * (rate / 12) := rfl

/-! ### Claim theorems: compounding primitives -/

/-- C8: for every present value `P`, contribution `C` and month count
`n ≥ 0`, `futureValue P C 0 n = P + C·n` exactly (the zero-rate case takes
the linear branch, never dividing by the zero rate); and for every
`n ≤ 0`, `futureValue P C r n` returns `P` unchanged for any rate `r`. -/
theorem C8_futureValue_degenerate (P C r : ℚ) (n : ℤ) :
    (0 ≤ n → futureValue P C 0 n = P + C * (n : ℚ))
    ∧ (n ≤ 0 → futureValue P C r n = P) := by
  constructor
  · intro hn
    rcases eq_or_lt_of_le hn with h0 | hpos
    · rw [futureValue, if_pos (le_of_eq h0.symm)]
      rw [← h0]
      norm_num
    · rw [futureValue, if_neg (not_le.mpr hpos), if_pos rfl]
  · intro hn
    rw [futureValue, if_pos hn]

/-- C8 witness: concrete instantiations of both conjuncts. -/
theorem C8_futureValue_degenerate_witness :
    futureValue 3 2 0 12 = 3 + 2 * ((12 : ℤ) : ℚ) ∧ futureValue 3 2 (5/100) (-4) = 3 :=
  ⟨(C8_futureValue_degenerate 3 2 0 12).1 (by norm_num),
   (C8_futureValue_degenerate 3 2 (5/100) (-4)).2 (by norm_num)⟩

/-- C9: `requiredMonthly` always returns a value `≥ 0` (a surplus yields
exactly `0`, never a negative contribution), and when `months ≤ 0` it
returns `max 0 (target − present)`. -/
theorem C9_requiredMonthly_clamped (P T r : ℚ) (n : ℤ) :
    0 ≤ requiredMonthly P T r n
    ∧ (n ≤ 0 → requiredMonthly P T r n = max 0 (T - P)) := by
  constructor
  · rw [requiredMonthly]
    split_ifs <;> simp [le_max_left]
  · intro hn
    rw [requiredMonthly, if_pos hn]

/-- C9 witness: concrete instantiations of both conjuncts. -/
theorem C9_requiredMonthly_clamped_witness :
    0 ≤ requiredMonthly 9 5 (7/100) 12 ∧ requiredMonthly 5 9 (7/100) (-1) = max 0 (9 - 5) :=
  ⟨(C9_requiredMonthly_clamped 9 5 (7/100) 12).1,
   (C9_requiredMonthly_clamped 5 9 (7/100) (-1)).2 (by norm_num)⟩

/-- C7: for every non-negative present value `P`, rate `r ≥ 0`, horizon
`n ≥ 1` and target `T` reachable at the horizon
(`futureValue P 0 r n ≤ T`), feeding the result of `requiredMonthly` back into
`futureValue` recovers the target exactly (the rational model has no
rounding). -/
theorem C7_requiredMonthly_roundtrip (P T r : ℚ) (n : ℤ)
    (hP : 0 ≤ P) (hr : 0 ≤ r) (hn : 1 ≤ n) (hT : futureValue P 0 r n ≤ T) :
    futureValue P (requiredMonthly P T r n) r n = T := by
  have hn0 : ¬ n ≤ 0 := by omega
  by_cases hr0 : r = 0
  · subst hr0
    rw [futureValue, if_neg hn0, if_pos rfl] at hT
    rw [futureValue, if_neg hn0, if_pos rfl, requiredMonthly, if_neg hn0, if_pos rfl]
    have hnq : (0 : ℚ) < (n : ℚ) := by exact_mod_cast (by omega : (0 : ℤ) < n)
    have hTP : 0 ≤ (T - P) / (n : ℚ) := by
      apply div_nonneg _ (le_of_lt hnq)
      have : P + 0 * (n : ℚ) = P := by ring
      linarith [hT, this]
    rw [max_eq_right]
    · field_simp
    · have : P + 0 * (n : ℚ) = P := by ring
      rw [this] at hT
      positivity
  · have hrpos : 0 < r := lt_of_le_of_ne hr (Ne.symm hr0)
    have hr12 : (0 : ℚ) < r / 12 := by positivity
    have hfac1 : 1 < (1 + r / 12) ^ n.toNat := by
      apply one_lt_pow₀ (by linarith)
      omega
    have hfacne : (1 + r / 12) ^ n.toNat - 1 ≠ 0 := by linarith
    have hr12ne : r / 12 ≠ 0 := ne_of_gt hr12
    rw [futureValue, if_neg hn0, if_neg hr0] at hT
    simp only at hT
    have hT' : P * (1 + r / 12) ^ n.toNat ≤ T := by
      have hz : P * (1 + r / 12) ^ n.toNat
          + 0 * (((1 + r / 12) ^ n.toNat - 1) / (r / 12))
          = P * (1 + r / 12) ^ n.toNat := by ring
      linarith [hT, hz.symm.le]
    rw [futureValue, if_neg hn0, if_neg hr0, requiredMonthly, if_neg hn0, if_neg hr0]
    simp only
    have hcanc : r / 12 / ((1 + r / 12) ^ n.toNat - 1)
        * (((1 + r / 12) ^ n.toNat - 1) / (r / 12)) = 1 := by
      rw [div_mul_div_comm, mul_comm (r / 12) ((1 + r / 12) ^ n.toNat - 1),
        div_self (mul_ne_zero hfacne hr12ne)]
    rw [max_eq_right]
    · rw [mul_assoc, hcanc, mul_one]
      ring
    · exact mul_nonneg (by linarith) (div_nonneg (le_of_lt hr12) (by linarith))

/-- C7 witness: zero-rate concrete round trip. -/
theorem C7_requiredMonthly_roundtrip_witness :
    futureValue 10 (requiredMonthly 10 130 0 12) 0 12 = 130 :=
  C7_requiredMonthly_roundtrip 10 130 0 12 (by norm_num) (by norm_num) (by norm_num)
    (by rw [futureValue]; norm_num)

/-! ### Claim theorems: the scenario engine -/

/-- C3: in every built scenario, rent is charged in a month iff the month
index is at least the configured rent-start month and strictly before the
purchase month of the first property; in particular no month in or after the
first purchase month has a nonzero `monthlyRent`, and every
configured-rent month before it carries the configured rent. -/
theorem C3_rent_window (jpow : ℚ → ℚ → ℚ) (cfg : FireConfig)
    (props : List PropertyConfig) (rate : ℚ) (i : ℕ) (h : i < totalMonthsOf cfg) :
    (monthRec jpow cfg props rate i).month = i + 1
    ∧ ((monthRec jpow cfg props rate i).monthlyRent
        = if cfg.rentStartMonth.getD 0 ≤ i + 1
              ∧ ((i + 1 : ℕ) : WithTop ℕ) < firstPurchaseMonth props
          then cfg.monthlyRent.getD 0 else 0)
    ∧ (firstPurchaseMonth props ≤ ((i + 1 : ℕ) : WithTop ℕ) →
        (monthRec jpow cfg props rate i).monthlyRent = 0)
    ∧ (cfg.rentStartMonth.getD 0 ≤ i + 1 →
        ((i + 1 : ℕ) : WithTop ℕ) < firstPurchaseMonth props →
        (monthRec jpow cfg props rate i).monthlyRent = cfg.monthlyRent.getD 0) := by
  rw [monthRec_eq_recAt jpow cfg props rate i h]
  refine ⟨recAt_month jpow cfg props rate i,
    recAt_monthlyRent jpow cfg props rate i, ?_, ?_⟩
  · intro hge
    rw [recAt_monthlyRent, if_neg]
    intro hc
    exact absurd hc.2 (not_lt.mpr hge)
  · intro h1 h2
    rw [recAt_monthlyRent, if_pos ⟨h1, h2⟩]

/-- C2: for a property scheduled in month `i+1` with `keepPortfolio` unset,
if the available balance (start + contribution + growth of the record of
that month) covers the acquisition cost, the full cost is withdrawn and no
bridge loan is recorded; otherwise the withdrawal is `max 0 available`,
a bridge loan of exactly `cost − max 0 available` is recorded in that same
month, and withdrawal + loan = cost exactly. -/
theorem C2_bridge_loan_origination (jpow : ℚ → ℚ → ℚ) (cfg : FireConfig)
    (props : List PropertyConfig) (rate : ℚ) (i : ℕ) (p : PropertyConfig)
    (h : i < totalMonthsOf cfg) (hp : propertyMonthAt props (i + 1) = some p)
    (hkeep : cfg.keepPortfolio = false) :
    (propertyCashNeeded p ≤ (monthRec jpow cfg props rate i).startBalance
          + (monthRec jpow cfg props rate i).contribution
          + (monthRec jpow cfg props rate i).growth →
        (monthRec jpow cfg props rate i).propertyWithdrawal = propertyCashNeeded p
        ∧ (monthRec jpow cfg props rate i).parentLoan = none)
    ∧ ((monthRec jpow cfg props rate i).startBalance
          + (monthRec jpow cfg props rate i).contribution
          + (monthRec jpow cfg props rate i).growth < propertyCashNeeded p →
        0 < propertyCashNeeded p →
        (monthRec jpow cfg props rate i).propertyWithdrawal
            = max 0 ((monthRec jpow cfg props rate i).startBalance
                + (monthRec jpow cfg props rate i).contribution
                + (monthRec jpow cfg props rate i).growth)
        ∧ (monthRec jpow cfg props rate i).parentLoan
            = some (propertyCashNeeded p
                - max 0 ((monthRec jpow cfg props rate i).startBalance
                    + (monthRec jpow cfg props rate i).contribution
                    + (monthRec jpow cfg props rate i).growth))
        ∧ (monthRec jpow cfg props rate i).propertyWithdrawal
            + (propertyCashNeeded p
                - max 0 ((monthRec jpow cfg props rate i).startBalance
                    + (monthRec jpow cfg props rate i).contribution
                    + (monthRec jpow cfg props rate i).growth))
            = propertyCashNeeded p) := by
  rw [monthRec_eq_recAt jpow cfg props rate i h]
  rw [recAt_startBalance, recAt_growth]
  constructor
  · intro hle
    constructor
    · rw [recAt_propertyWithdrawal]
      simp [purchaseStep, hp, hkeep, hle]
    · rw [recAt_parentLoan]
      simp [purchaseStep, hp, hkeep, hle]
  · intro hlt hpos
    have hb : ¬ propertyCashNeeded p
        ≤ (runMonths jpow cfg props rate i).balance
          + (recAt jpow cfg props rate i).contribution
          + (runMonths jpow cfg props rate i).balance * (rate / 12) := not_le.mpr hlt
    have hmax : max 0 ((runMonths jpow cfg props rate i).balance
        + (recAt jpow cfg props rate i).contribution
        + (runMonths jpow cfg props rate i).balance * (rate / 12)) < propertyCashNeeded p :=
      max_lt hpos hlt
    have hloanpos : 0 < propertyCashNeeded p
        - max 0 ((runMonths jpow cfg props rate i).balance
            + (recAt jpow cfg props rate i).contribution
            + (runMonths jpow cfg props rate i).balance * (rate / 12)) :=
      sub_pos.mpr hmax
    refine ⟨?_, ?_, ?_⟩
    · rw [recAt_propertyWithdrawal]
      simp [purchaseStep, hp, hkeep, hb]
    · rw [recAt_parentLoan]
      simp only [purchaseStep, hp, hkeep]
      simp [hb, hloanpos]
    · rw [recAt_propertyWithdrawal]
      simp only [purchaseStep, hp, hkeep]
      simp [hb]

/-- C4: whenever the raw end balance of a month
(start + contribution + growth − withdrawal) would be negative, the stored
end balance is clamped to exactly zero and the `feasible` flag of the scenario
is `false`; the flag is one-way (`feasible = false` iff some month went
negative, so no later month resets it), and the full month sequence is
still produced to the horizon. -/
theorem C4_clamp_infeasible (jpow : ℚ → ℚ → ℚ) (cfg : FireConfig)
    (props : List PropertyConfig) (rate : ℚ) :
    ( buildScenario jpow cfg props rate).monthProjections.length = totalMonthsOf cfg
    ∧ (∀ i < totalMonthsOf cfg,
        (rawOf (monthRec jpow cfg props rate i) < 0 →
          (monthRec jpow cfg props rate i).endBalance = 0
          ∧ ( buildScenario jpow cfg props rate).feasible = false)
        ∧ (0 ≤ rawOf (monthRec jpow cfg props rate i) →
          (monthRec jpow cfg props rate i).endBalance
            = rawOf (monthRec jpow cfg props rate i)))
    ∧ (( buildScenario jpow cfg props rate).feasible = false
        ↔ ∃ i < totalMonthsOf cfg, rawOf (monthRec jpow cfg props rate i) < 0) := by
  have hfeas := runMonths_feasible jpow cfg props rate (totalMonthsOf cfg)
  refine ⟨buildScenario_months_length jpow cfg props rate, ?_, ?_⟩
  · intro i hi
    rw [monthRec_eq_recAt jpow cfg props rate i hi]
    constructor
    · intro hraw
      refine ⟨by rw [recAt_endBalance, if_pos hraw], ?_⟩
      rw [buildScenario_feasible]
      cases hf : (runMonths jpow cfg props rate (totalMonthsOf cfg)).feasible
      · rfl
      · exact absurd (hfeas.mp hf i hi) (not_le.mpr hraw)
    · intro hraw
      rw [recAt_endBalance, if_neg (not_lt.mpr hraw)]
  · rw [buildScenario_feasible]
    constructor
    · intro hfalse
      by_contra hno
      push_neg at hno
      have hall : ∀ i < totalMonthsOf cfg, 0 ≤ rawOf (recAt jpow cfg props rate i) := by
        intro i hi
        have := hno i hi
        rw [monthRec_eq_recAt jpow cfg props rate i hi] at this
        exact this
      rw [hfeas.mpr hall] at hfalse
      exact Bool.true_eq_false.mp hfalse
    · rintro ⟨i, hi, hraw⟩
      rw [monthRec_eq_recAt jpow cfg props rate i hi] at hraw
      cases hf : (runMonths jpow cfg props rate (totalMonthsOf cfg)).feasible
      · rfl
      · exact absurd (hfeas.mp hf i hi) (not_le.mpr hraw)

/-- C10: every built scenario has exactly `(targetAge − currentAge) × 12`
month records, numbered consecutively from 1; the first record starts at
`currentPortfolio + currentCash`; each later record starts at the previous
end balance of the previous record; and the end balance of each record is the raw
start + contribution + growth − withdrawal, clamped at zero. -/
theorem C10_month_chain (jpow : ℚ → ℚ → ℚ) (cfg : FireConfig)
    (props : List PropertyConfig) (rate : ℚ) (h : cfg.currentAge ≤ cfg.targetAge) :
    ((( buildScenario jpow cfg props rate).monthProjections.length : ℤ)
        = (cfg.targetAge - cfg.currentAge) * 12)
    ∧ (∀ i < totalMonthsOf cfg, (monthRec jpow cfg props rate i).month = i + 1)
    ∧ (0 < totalMonthsOf cfg →
        (monthRec jpow cfg props rate 0).startBalance
          = cfg.currentPortfolio + cfg.currentCash)
    ∧ (∀ i, i + 1 < totalMonthsOf cfg →
        (monthRec jpow cfg props rate (i + 1)).startBalance
          = (monthRec jpow cfg props rate i).endBalance)
    ∧ (∀ i < totalMonthsOf cfg,
        (monthRec jpow cfg props rate i).endBalance
          = if rawOf (monthRec jpow cfg props rate i) < 0 then 0
            else rawOf (monthRec jpow cfg props rate i)) := by
  refine ⟨?_, ?_, ?_, ?_, ?_⟩
  · rw [buildScenario_months_length, totalMonthsOf, Int.toNat_of_nonneg]
    exact mul_nonneg (by omega) (by norm_num)
  · intro i hi
    rw [monthRec_eq_recAt jpow cfg props rate i hi]
    exact recAt_month jpow cfg props rate i
  · intro h0
    rw [monthRec_eq_recAt jpow cfg props rate 0 h0]
    exact recAt_zero_startBalance jpow cfg props rate
  · intro i hi
    rw [monthRec_eq_recAt jpow cfg props rate (i + 1) hi,
      monthRec_eq_recAt jpow cfg props rate i (Nat.lt_of_succ_lt hi)]
    exact recAt_startBalance_succ jpow cfg props rate i
  · intro i hi
    rw [monthRec_eq_recAt jpow cfg props rate i hi]
    exact recAt_endBalance jpow cfg props rate i

/-- C1 (amended): mortgage obligations are additive and independently
tracked: the total mortgage outflow of every month equals the sum, over the
properties purchased in earlier months, of the independently computed
amortization payment of that property while its term is still running —
a later purchase or the end of one mortgage never alters the still-active
mortgage of an earlier property.  (The bridge-loan repayment, by
contrast, is a single scalar schedule; see the counterexample.) -/
theorem C1_mortgage_outflow_additive (jpow : ℚ → ℚ → ℚ) (cfg : FireConfig)
    (props : List PropertyConfig) (rate : ℚ) (i : ℕ) (h : i < totalMonthsOf cfg) :
    (monthRec jpow cfg props rate i).monthlyMortgage
      = ((List.range i).map (fun j =>
          match propertyMonthAt props (j + 1) with
          | some p =>
              if i + 1 ≤ j + 1 + p.mortgageTerm * 12
              then monthlyMortgagePayment (p.price * (1 - p.downPaymentPercent / 100))
                  p.mortgageRate p.mortgageTerm
              else 0
          | none => 0)).sum := by
  rw [monthRec_eq_recAt jpow cfg props rate i h, recAt_monthlyMortgage,
    runMonths_activeMortgages, foldl_add_map_sum, zero_add, mortgagesUpTo,
    sum_map_filterMap_option]
  refine congrArg List.sum (List.map_congr_left ?_)
  intro j hj
  cases hpj : propertyMonthAt props (j + 1) <;> simp [hpj]

/-- C5: the recorded `fireReachedMonth` is exactly the first month whose
end balance reaches the inflation-adjusted target evaluated at that month,
and `fireReachedDate` / `fireReachedYear` / `fireReachedAge` are fixed at
that same first month; it is `none` iff no month reaches the target. -/
theorem C5_fire_reached_first_month (jpow : ℚ → ℚ → ℚ) (cfg : FireConfig)
    (props : List PropertyConfig) (rate : ℚ) :
    (∀ m, ( buildScenario jpow cfg props rate).fireReachedMonth = some m →
      ∃ i, i < totalMonthsOf cfg ∧ m = i + 1
        ∧ inflationAdjustedFireNumberAtMonth jpow cfg.annualExpenses cfg.withdrawalRate
            cfg.inflationRate (i + 1) ≤ (monthRec jpow cfg props rate i).endBalance
        ∧ (∀ j < i, ¬ inflationAdjustedFireNumberAtMonth jpow cfg.annualExpenses
            cfg.withdrawalRate cfg.inflationRate (j + 1)
            ≤ (monthRec jpow cfg props rate j).endBalance)
        ∧ ( buildScenario jpow cfg props rate).fireReachedDate
            = some (monthRec jpow cfg props rate i).date
        ∧ ( buildScenario jpow cfg props rate).fireReachedYear
            = some ((i + 1 + 11) / 12)
        ∧ ( buildScenario jpow cfg props rate).fireReachedAge
            = some (monthRec jpow cfg props rate i).age)
    ∧ (( buildScenario jpow cfg props rate).fireReachedMonth = none ↔
        ∀ i < totalMonthsOf cfg, ¬ inflationAdjustedFireNumberAtMonth jpow
          cfg.annualExpenses cfg.withdrawalRate cfg.inflationRate (i + 1)
          ≤ (monthRec jpow cfg props rate i).endBalance)
    ∧ (∀ i, i < totalMonthsOf cfg →
        inflationAdjustedFireNumberAtMonth jpow cfg.annualExpenses cfg.withdrawalRate
          cfg.inflationRate (i + 1) ≤ (monthRec jpow cfg props rate i).endBalance →
        (∀ j < i, ¬ inflationAdjustedFireNumberAtMonth jpow cfg.annualExpenses
          cfg.withdrawalRate cfg.inflationRate (j + 1)
          ≤ (monthRec jpow cfg props rate j).endBalance) →
        ( buildScenario jpow cfg props rate).fireReachedMonth = some (i + 1)) := by
  have hinv := runMonths_fire jpow cfg props rate (totalMonthsOf cfg)
  rw [← buildScenario_fireReachedMonth, ← buildScenario_fireReachedDate,
    ← buildScenario_fireReachedYear, ← buildScenario_fireReachedAge] at hinv
  have hhit : ∀ i, i < totalMonthsOf cfg →
      (fireHit jpow cfg props rate i ↔
        inflationAdjustedFireNumberAtMonth jpow cfg.annualExpenses cfg.withdrawalRate
          cfg.inflationRate (i + 1) ≤ (monthRec jpow cfg props rate i).endBalance) := by
    intro i hi
    rw [fireHit, monthRec_eq_recAt jpow cfg props rate i hi]
  refine ⟨?_, ?_, ?_⟩
  · intro m hm
    rcases hinv with ⟨hnone, _, _, _, _⟩ | ⟨i, hik, hh, hfirst, hm2, hd, hy, ha⟩
    · rw [hnone] at hm; exact absurd hm (by simp)
    · rw [hm2] at hm
      refine ⟨i, hik, (Option.some_injective _ hm).symm, (hhit i hik).mp hh, ?_, ?_, hy, ?_⟩
      · intro j hj
        rw [← hhit j (lt_trans hj hik)]
        exact hfirst j hj
      · rw [monthRec_eq_recAt jpow cfg props rate i hik]
        exact hd
      · rw [monthRec_eq_recAt jpow cfg props rate i hik]
        exact ha
  · constructor
    · intro hnone i hi
      rcases hinv with ⟨_, _, _, _, hall⟩ | ⟨i', hik, hh, _, hm2, _⟩
      · rw [← hhit i hi]; exact hall i hi
      · rw [hm2] at hnone; exact absurd hnone (by simp)
    · intro hall
      rcases hinv with ⟨hnone, _⟩ | ⟨i', hik, hh, _, hm2, _⟩
      · exact hnone
      · exact absurd ((hhit i' hik).mp hh) (hall i' hik)
  · intro i hi hh hleast
    rcases hinv with ⟨hnone, _, _, _, hall⟩ | ⟨i', hik, hh', hfirst, hm2, _⟩
    · exact absurd ((hhit i hi).mpr hh) (hall i hi)
    · have : i = i' := by
        rcases lt_trichotomy i i' with hlt | heq | hgt
        · exact absurd ((hhit i hi).mpr hh) (hfirst i hlt)
        · exact heq
        · exact absurd ((hhit i' hik).mp hh')
            (by
              have := hleast i' hgt
              exact this)
      rw [this]
      exact hm2

/-- Bisection invariant: starting from an upper end that satisfies the
predicate or equals the bound `B`, the returned value stays in `[0, B]`
and satisfies the predicate or equals `B`. -/
lemma bisect_mem (pred : ℚ → Bool) (B : ℚ) :
    ∀ (fuel : ℕ) (lo hi : ℚ), 0 ≤ lo → lo ≤ hi → hi ≤ B →
      (pred hi = true ∨ hi = B) →
      0 ≤ bisect pred fuel lo hi ∧ bisect pred fuel lo hi ≤ B
        ∧ (pred (bisect pred fuel lo hi) = true ∨ bisect pred fuel lo hi = B) := by
  intro fuel
  induction fuel with
  | zero =>
      intro lo hi h0 hlh hhB hp
      exact ⟨le_trans h0 hlh, hhB, hp⟩
  | succ fuel ih =>
      intro lo hi h0 hlh hhB hp
      have hmid_lo : lo ≤ (lo + hi) / 2 := by linarith
      have hmid_hi : (lo + hi) / 2 ≤ hi := by linarith
      simp only [bisect]
      by_cases hm : pred ((lo + hi) / 2) = true
      · simp only [hm, if_true]
        split_ifs with hbreak
        · exact ⟨le_trans h0 hmid_lo, le_trans hmid_hi hhB, Or.inl hm⟩
        · exact ih lo ((lo + hi) / 2) h0 hmid_lo (le_trans hmid_hi hhB) (Or.inl hm)
      · rw [Bool.not_eq_true] at hm
        simp only [hm, Bool.false_eq_true, if_false]
        split_ifs with hbreak
        · exact ⟨le_trans h0 hlh, hhB, hp⟩
        · exact ih ((lo + hi) / 2) hi (le_trans h0 hmid_lo) hmid_hi hhB hp

/-- When the predicate is false on all of `[0, B]`, the bisection pinned at
upper end `B` returns exactly `B`. -/
lemma bisect_const_false (pred : ℚ → Bool) (B : ℚ) :
    ∀ (fuel : ℕ) (lo : ℚ), 0 ≤ lo → lo ≤ B →
      (∀ x, 0 ≤ x → x ≤ B → pred x = false) →
      bisect pred fuel lo B = B := by
  intro fuel
  induction fuel with
  | zero => intro lo _ _ _; rfl
  | succ fuel ih =>
      intro lo h0 hlB hall
      have hmid_lo : lo ≤ (lo + B) / 2 := by linarith
      have hmid_hi : (lo + B) / 2 ≤ B := by linarith
      have hm : pred ((lo + B) / 2) = false :=
        hall _ (le_trans h0 hmid_lo) hmid_hi
      simp only [bisect, hm, Bool.false_eq_true, if_false]
      split_ifs with hbreak
      · rfl
      · exact ih ((lo + B) / 2) (le_trans h0 hmid_lo) hmid_hi hall

/-- C6: `gapAnalysis` uses the bisection over the scenario engine exactly
when properties are present: the result is the ceiling of a probe value
`g ∈ [0, 50000]` (so within one currency unit of it) such that re-running
`buildScenario` with monthly capacity `g` reaches the inflation-adjusted
target, or `g` is pinned at the upper guess bound; when the target is
unreachable on the whole bounded range the result is exactly the bound
50000; and with no properties the closed-form `requiredMonthly` is
returned with no search. -/
theorem C6_gap_solver (jpow : ℚ → ℚ → ℚ) (cfg : FireConfig)
    (props : List PropertyConfig) (rate : ℚ) :
    (props = [] → (gapAnalysis jpow cfg props rate).requiredMonthly
        = requiredMonthly (cfg.currentPortfolio + cfg.currentCash)
            (inflationAdjustedFireNumber jpow cfg.annualExpenses cfg.withdrawalRate
              cfg.inflationRate ((cfg.targetAge - cfg.currentAge : ℤ) : ℚ))
            rate ((cfg.targetAge - cfg.currentAge) * 12))
    ∧ (props ≠ [] → ∃ g : ℚ,
        (gapAnalysis jpow cfg props rate).requiredMonthly = ((⌈g⌉ : ℤ) : ℚ)
        ∧ g ≤ ((⌈g⌉ : ℤ) : ℚ) ∧ ((⌈g⌉ : ℤ) : ℚ) < g + 1 ∧ 0 ≤ g ∧ g ≤ 50000
        ∧ (inflationAdjustedFireNumber jpow cfg.annualExpenses cfg.withdrawalRate
              cfg.inflationRate ((cfg.targetAge - cfg.currentAge : ℤ) : ℚ)
            ≤ ( buildScenario jpow { cfg with monthlyInvestment := g } props rate).finalBalance
          ∨ g = 50000))
    ∧ (props ≠ [] →
        (∀ x : ℚ, 0 ≤ x → x ≤ 50000 →
          ( buildScenario jpow { cfg with monthlyInvestment := x } props rate).finalBalance
            < inflationAdjustedFireNumber jpow cfg.annualExpenses cfg.withdrawalRate
                cfg.inflationRate ((cfg.targetAge - cfg.currentAge : ℤ) : ℚ)) →
        (gapAnalysis jpow cfg props rate).requiredMonthly = 50000) := by
  refine ⟨?_, ?_, ?_⟩
  · intro he
    simp [gapAnalysis, he]
  · intro hne
    have hred : (gapAnalysis jpow cfg props rate).requiredMonthly
        = ((⌈bisect (fun mid => decide
              (inflationAdjustedFireNumber jpow cfg.annualExpenses cfg.withdrawalRate
                  cfg.inflationRate ((cfg.targetAge - cfg.currentAge : ℤ) : ℚ)
                ≤ ( buildScenario jpow { cfg with monthlyInvestment := mid } props
                    rate).finalBalance))
            50 0 50000⌉ : ℤ) : ℚ) := by
      simp only [gapAnalysis, requiredMonthlyWithPhases]
      rw [if_pos hne]
    obtain ⟨h1, h2, h3⟩ := bisect_mem (fun mid => decide
        (inflationAdjustedFireNumber jpow cfg.annualExpenses cfg.withdrawalRate
            cfg.inflationRate ((cfg.targetAge - cfg.currentAge : ℤ) : ℚ)
          ≤ ( buildScenario jpow { cfg with monthlyInvestment := mid } props
              rate).finalBalance))
      50000 50 0 50000 (by norm_num) (by norm_num) (le_refl _) (Or.inr rfl)
    refine ⟨_, hred, Int.le_ceil _, Int.ceil_lt_add_one _, h1, h2, ?_⟩
    rcases h3 with hl | hr
    · exact Or.inl (of_decide_eq_true hl)
    · exact Or.inr hr
  · intro hne hall
    have hred : (gapAnalysis jpow cfg props rate).requiredMonthly
        = ((⌈bisect (fun mid => decide
              (inflationAdjustedFireNumber jpow cfg.annualExpenses cfg.withdrawalRate
                  cfg.inflationRate ((cfg.targetAge - cfg.currentAge : ℤ) : ℚ)
                ≤ ( buildScenario jpow { cfg with monthlyInvestment := mid } props
                    rate).finalBalance))
            50 0 50000⌉ : ℤ) : ℚ) := by
      simp only [gapAnalysis, requiredMonthlyWithPhases]
      rw [if_pos hne]
    rw [hred, bisect_const_false _ 50000 50 0 (le_refl 0) (by norm_num)
      (fun x hx hxB => decide_eq_false (not_le.mpr (hall x hx hxB)))]
    norm_num

/-! ### Witnesses and the C1 counterexample -/

set_option maxRecDepth 8000 in
set_option maxHeartbeats 1000000 in
/-- C1 counterexample: two bridge-loan-financed purchases (month 1: loan
120000, schedule 1000/month through month 121; month 2: loan 12000,
schedule 100/month through month 122).  Month 2 charges the 1000 of the
first loan; month 3 charges only 100 — the second origination replaced
the still-active bridge-loan schedule of the first property, so the bridge-loan
obligations are neither independently tracked nor additive (the additive,
independent prediction for month 3 is 1000 + 100). -/
theorem C1_counterexample :
    (( buildScenario jpowOne xCfg [xPropA, xPropB] 0).monthProjections.getD 1
        default).monthlyParentLoan = 1000
    ∧ (( buildScenario jpowOne xCfg [xPropA, xPropB] 0).monthProjections.getD 2
        default).monthlyParentLoan = 100
    ∧ ¬ (( buildScenario jpowOne xCfg [xPropA, xPropB] 0).monthProjections.getD 2
        default).monthlyParentLoan = 1000 + 100 := by
  refine ⟨?_, ?_, ?_⟩ <;>
    norm_num [buildScenario, runMonths, stepMonth, stepRecord, purchaseStep, initState,
      totalMonthsOf, xCfg, xPropA, xPropB, jpowOne, propertyMonthAt, purchaseMonthOf,
      firstPurchaseMonth, propertyCashNeeded, monthlyMortgagePayment,
      inflationAdjustedFireNumberAtMonth, inflationAdjustedFireNumber,
      addMonths, computeAge, DEFAULT_startDate, DEFAULT_birthMonth]

/-- C1 witness: with one €1200 zero-rate property the month-2 mortgage
outflow equals its single independently computed payment 960/120 = 8. -/
theorem C1_mortgage_outflow_additive_witness :
    (monthRec jpowOne wCfg [wPropM] 0 1).monthlyMortgage = 8 := by
  rw [C1_mortgage_outflow_additive jpowOne wCfg [wPropM] 0 1
    (by norm_num [totalMonthsOf, wCfg])]
  norm_num [propertyMonthAt, purchaseMonthOf, wPropM, monthlyMortgagePayment,
    List.range_succ]

/-- C2 witness: the €100 purchase against a €10 available balance
withdraws 10 and originates a bridge loan of exactly 90. -/
theorem C2_bridge_loan_origination_witness :
    (monthRec jpowOne wCfg [wProp] 0 0).propertyWithdrawal = 10
    ∧ (monthRec jpowOne wCfg [wProp] 0 0).parentLoan = some 90 := by
  have htot : (0 : ℕ) < totalMonthsOf wCfg := by norm_num [totalMonthsOf, wCfg]
  have havail : (monthRec jpowOne wCfg [wProp] 0 0).startBalance
      + (monthRec jpowOne wCfg [wProp] 0 0).contribution
      + (monthRec jpowOne wCfg [wProp] 0 0).growth = 10 := by
    rw [monthRec_eq_recAt jpowOne wCfg [wProp] 0 0 htot]
    norm_num [recAt, stepRecord, runMonths, initState, purchaseStep, wCfg, wProp,
      propertyMonthAt, purchaseMonthOf, firstPurchaseMonth, propertyCashNeeded]
  have hcash : propertyCashNeeded wProp = 100 := by
    norm_num [propertyCashNeeded, wProp]
  obtain ⟨hw, hl, -⟩ :=
    (C2_bridge_loan_origination jpowOne wCfg [wProp] 0 0 wProp htot rfl rfl).2
      (by rw [havail, hcash]; norm_num) (by rw [hcash]; norm_num)
  refine ⟨?_, ?_⟩
  · rw [hw, havail]
    exact max_eq_right (by norm_num)
  · rw [hl, havail, hcash, max_eq_right (by norm_num : (0 : ℚ) ≤ 10)]
    norm_num

/-- C3 witness: with no properties, the configured €7 rent is charged in
month 1. -/
theorem C3_rent_window_witness :
    (monthRec jpowOne wCfg [] 0 0).monthlyRent = 7 := by
  have h := (C3_rent_window jpowOne wCfg [] 0 0
      (by norm_num [totalMonthsOf, wCfg])).2.2.2 (by decide) (by decide)
  rw [h]
  rfl

/-- C4 witness: month 1 of the witness scenario has non-negative raw
balance, so its end balance is the unclamped raw value. -/
theorem C4_clamp_infeasible_witness :
    (monthRec jpowOne wCfg [] 0 0).endBalance
      = rawOf (monthRec jpowOne wCfg [] 0 0) := by
  have htot : (0 : ℕ) < totalMonthsOf wCfg := by norm_num [totalMonthsOf, wCfg]
  refine ((C4_clamp_infeasible jpowOne wCfg [] 0).2.1 0 htot).2 ?_
  rw [monthRec_eq_recAt jpowOne wCfg [] 0 0 htot]
  norm_num [rawOf, recAt, stepRecord, runMonths, initState, purchaseStep, wCfg,
    propertyMonthAt, purchaseMonthOf, firstPurchaseMonth]

/-- C5 witness: with zero annual expenses the inflation-adjusted target is
0, so the end balance of the first month (10) reaches it and `fireReachedMonth`
is month 1. -/
theorem C5_fire_reached_first_month_witness :
    ( buildScenario jpowOne wCfg [] 0).fireReachedMonth = some (0 + 1) := by
  have htot : (0 : ℕ) < totalMonthsOf wCfg := by norm_num [totalMonthsOf, wCfg]
  refine (C5_fire_reached_first_month jpowOne wCfg [] 0).2.2 0 htot ?_ (by omega)
  rw [monthRec_eq_recAt jpowOne wCfg [] 0 0 htot]
  norm_num [recAt, stepRecord, runMonths, initState, purchaseStep, wCfg, jpowOne,
    propertyMonthAt, purchaseMonthOf, firstPurchaseMonth,
    inflationAdjustedFireNumberAtMonth, inflationAdjustedFireNumber]

/-- C6 witness: with a non-empty property list the result of the gap solver is
the ceiling of a bisection probe in `[0, 50000]` that reaches the target
or is pinned at the bound. -/
theorem C6_gap_solver_witness :
    ∃ g : ℚ, (gapAnalysis jpowOne wCfg [wProp] 0).requiredMonthly = ((⌈g⌉ : ℤ) : ℚ)
      ∧ g ≤ ((⌈g⌉ : ℤ) : ℚ) ∧ ((⌈g⌉ : ℤ) : ℚ) < g + 1 ∧ 0 ≤ g ∧ g ≤ 50000
      ∧ (inflationAdjustedFireNumber jpowOne wCfg.annualExpenses wCfg.withdrawalRate
            wCfg.inflationRate ((wCfg.targetAge - wCfg.currentAge : ℤ) : ℚ)
          ≤ ( buildScenario jpowOne { wCfg with monthlyInvestment := g }
              [wProp] 0).finalBalance
        ∨ g = 50000) :=
  (C6_gap_solver jpowOne wCfg [wProp] 0).2.1 (by simp)

/-- C10 witness: the witness scenario has exactly `(36 − 35) × 12` month
records. -/
theorem C10_month_chain_witness :
    ((( buildScenario jpowOne wCfg [] 0).monthProjections.length : ℤ))
      = (wCfg.targetAge - wCfg.currentAge) * 12 :=
  (C10_month_chain jpowOne wCfg [] 0 (by norm_num [wCfg])).1

end FirePlanner
